import Mathlib

/-!
Shallow embedding of the Scene Playback Engine from `src/src/App.jsx`
(the second `App` component, lines 139-418, which contains the animated
preview player).

Numbers coming from JSON (transition durations, character color seeds)
are modelled as rationals; JS `undefined` becomes `Option.none`.  The
JS truthiness test `d || 0.8` on a numeric `d` is modelled by treating
`none` and `some 0` as falsy (`orDefault`).

Playback state mirrors the React state of the component: `result`,
`idx`, `playing`, `error`, `loading`, plus an explicit model of the
`useAutoAdvance` hook: `timerRef` (the id stored in the ref) and
`pending` (the multiset of scheduled, not-yet-fired, not-yet-cancelled
timeouts) together with a `fresh` counter producing timer ids.  A React
effect cycle (cleanup of the previous run, then the effect body) runs
exactly when the dependency array `[playing, idx, result,
basePerSceneMs]` changes; `setResult` always installs a fresh object,
so installing a result always re-runs the effect.
-/

structure Transition where
  type : String
  duration : Option ℚ
  deriving DecidableEq

structure CharacterAppearance where
  id : String
  emotion : Option String
  dialogue : Option String
  deriving DecidableEq

structure Character where
  id : String
  name : String
  color : ℤ
  deriving DecidableEq

structure Environment where
  id : String
  name : String
  deriving DecidableEq

structure Scene where
  id : String
  title : String
  description : String
  environmentId : String
  transition : Transition
  characters : List CharacterAppearance
  deriving DecidableEq

structure GenResult where
  style : String
  characters : List Character
  environments : List Environment
  scenes : List Scene
  deriving DecidableEq

/-- JS `d || dflt` on an optional number: `undefined` and `0` are falsy. -/
def orDefault (d : Option ℚ) (dflt : ℚ) : ℚ :=
  match d with
  | none => dflt
  | some x => if x = 0 then dflt else x

/-- `basePerSceneMs` (App.jsx lines 170-174): fixed lookup from the pacing tag. -/
def basePerSceneMs (pacing : String) : ℚ :=
  if pacing = "slow" then 4000
  else if pacing = "fast" then 1800
  else 2800

/-- `result?.scenes[idx]` (App.jsx line 176); a negative or out-of-range JS
array index yields `undefined`. -/
def currentScene (result : Option GenResult) (idx : ℤ) : Option Scene :=
  match result with
  | none => none
  | some r => if 0 ≤ idx then r.scenes.get? idx.toNat else none

/-- `getDelayMs` (App.jsx lines 215-219):
`basePerSceneMs + (currentScene.transition?.duration || 0.8) * 1000`,
and `0` when there is no current scene. -/
def getDelayMs (result : Option GenResult) (idx : ℤ) (pacing : String) : ℚ :=
  match currentScene result idx with
  | none => 0
  | some sc => basePerSceneMs pacing + orDefault sc.transition.duration 0.8 * 1000

/-- A value appearing in a framer-motion prop: a number or a string such as
the percentage offsets used by the wipe profile. -/
inductive MotionValue where
  | num : ℚ → MotionValue
  | str : String → MotionValue
  deriving DecidableEq

/-- One phase (initial / animate / exit) of a motion profile.  The
`transition` field is the `transition: { duration }` prop (absent on the
initial phase in the source). -/
structure MotionProps where
  x : Option MotionValue
  scale : Option ℚ
  opacity : Option ℚ
  filter : Option String
  transition : Option ℚ
  deriving DecidableEq

structure TransitionVariants where
  initial : MotionProps
  animate : MotionProps
  exit : MotionProps
  deriving DecidableEq

/-- The `'wipe'` case of `getTransitionVariants` (App.jsx lines 181-186). -/
def wipeVariants (cd : ℚ) : TransitionVariants :=
  ⟨⟨some (MotionValue.str "100%"), none, some 1, none, none⟩,
   ⟨some (MotionValue.num 0), none, some 1, none, some cd⟩,
   ⟨some (MotionValue.str "-100%"), none, some 1, none, some cd⟩⟩

/-- The `'pan'` case of `getTransitionVariants` (App.jsx lines 187-192). -/
def panVariants (cd : ℚ) : TransitionVariants :=
  ⟨⟨some (MotionValue.num 20), some 1.1, some 0.9, none, none⟩,
   ⟨some (MotionValue.num 0), some 1, some 1, none, some cd⟩,
   ⟨some (MotionValue.num (-15)), some 0.98, some 0.9, none, some cd⟩⟩

/-- The `'dolly'` case of `getTransitionVariants` (App.jsx lines 193-198). -/
def dollyVariants (cd : ℚ) : TransitionVariants :=
  ⟨⟨none, some 0.9, some 0, none, none⟩,
   ⟨none, some 1, some 1, none, some cd⟩,
   ⟨none, some 1.05, some 0, none, some cd⟩⟩

/-- The `'fade-through-black'` case of `getTransitionVariants`
(App.jsx lines 199-204). -/
def fadeThroughBlackVariants (cd : ℚ) : TransitionVariants :=
  ⟨⟨none, none, some 0, some "brightness(0)", none⟩,
   ⟨none, none, some 1, some "brightness(1)", some cd⟩,
   ⟨none, none, some 0, some "brightness(0)", some cd⟩⟩

/-- The `'crossfade'` and `default` cases of `getTransitionVariants`
(App.jsx lines 205-211). -/
def crossfadeVariants (cd : ℚ) : TransitionVariants :=
  ⟨⟨none, none, some 0, none, none⟩,
   ⟨none, none, some 1, none, some cd⟩,
   ⟨none, none, some 0, none, some cd⟩⟩

/-- `getTransitionVariants` (App.jsx lines 178-213).  In the source the
duration is read from the enclosing component's current scene
(`common = { duration: currentScene?.transition?.duration || 0.8 }`);
here that optional duration is the second argument, making the closure
capture explicit. -/
def getTransitionVariants (t : String) (d : Option ℚ) : TransitionVariants :=
  let cd := orDefault d 0.8
  if t = "wipe" then wipeVariants cd
  else if t = "pan" then panVariants cd
  else if t = "dolly" then dollyVariants cd
  else if t = "fade-through-black" then fadeThroughBlackVariants cd
  else crossfadeVariants cd

def knownTransitionTypes : List String :=
  ["crossfade", "wipe", "pan", "dolly", "fade-through-black"]

/-- The React state of the player component plus an explicit model of the
`useAutoAdvance` timer machinery (App.jsx lines 144-157, 159-261).
`pending` is the list of scheduled timeouts that have neither fired nor
been cancelled; `timerRef` is the id last written to `timerRef.current`;
`fresh` supplies the next timer id. -/
structure PlayerState where
  result : Option GenResult
  pacing : String
  idx : ℤ
  playing : Bool
  error : String
  loading : Bool
  timerRef : Option ℕ
  pending : List ℕ
  fresh : ℕ
  deriving DecidableEq

/-- `clearTimeout(timerRef.current)`: removes the ref's timer from the
pending set; a no-op on an already fired or cancelled id. -/
def erasePending (timerRef : Option ℕ) (pending : List ℕ) : List ℕ :=
  match timerRef with
  | none => pending
  | some t => pending.erase t

/-- One run of the `useAutoAdvance` effect cycle (App.jsx lines 144-157):
the cleanup of the previous run clears the ref's timeout, then the body
either returns early (`!enabled`, or `!delay || delay <= 0`) or clears and
schedules a fresh single-shot timeout, storing its id in the ref.
(When the body of the previous run returned early it registered no
cleanup, but in that case the ref's timer is already fired or cancelled,
so the unconditional clear is equivalent.) -/
def runEffect (s : PlayerState) : PlayerState :=
  let cleared : PlayerState := { s with pending := erasePending s.timerRef s.pending }
  if s.playing && s.result.isSome then
    if getDelayMs s.result s.idx s.pacing ≤ 0 then cleared
    else { cleared with
             pending := cleared.pending ++ [s.fresh],
             timerRef := some s.fresh,
             fresh := s.fresh + 1 }
  else cleared

/-- `Math.max(0, i - 1)`: the Prev button updater (App.jsx line 331). -/
def clampPrev (i : ℤ) : ℤ := max 0 (i - 1)

/-- `result ? Math.min(result.scenes.length - 1, i + 1) : 0`: the Next
button updater (App.jsx line 337). -/
def clampNext (result : Option GenResult) (i : ℤ) : ℤ :=
  match result with
  | none => 0
  | some r => min ((r.scenes.length : ℤ) - 1) (i + 1)

/-- The `onTick` updater passed to `useAutoAdvance` (App.jsx lines 221-231):
given the current result, cursor and playing flag, returns the new cursor
and playing flag. -/
def stepTick (result : Option GenResult) (i : ℤ) (playing : Bool) : ℤ × Bool :=
  match result with
  | none => (0, playing)
  | some r =>
      if (r.scenes.length : ℤ) ≤ i + 1 then (i, false)
      else (i + 1, playing)

/-- The externally triggerable operations on the player: the four buttons,
the two outcomes of `generate()`, and the firing of a scheduled timeout. -/
inductive Op where
  | play : Op
  | pause : Op
  | next : Op
  | prev : Op
  | reset : Op
  | install : GenResult → Op
  | genFail : String → Op
  | tick : ℕ → Op
  deriving DecidableEq

/-- One operation followed by the induced React render: the effect cycle
re-runs exactly when the dependency array `[playing, idx, result, base]`
changes (React bails out of a state update that `Object.is`-equals the old
value, and the effect itself only re-runs on a dependency change).
`setResult` always stores a freshly parsed object, so `install` and a
`genFail` after an installed result always change the `result` dependency;
`genFail` from a `none` result leaves `result` reference-equal (`null`),
but then no timer can be pending, so running the cycle is equivalent. -/
def applyOp (op : Op) (s : PlayerState) : PlayerState :=
  match op with
  | Op.play =>
      if s.playing then s else runEffect { s with playing := true }
  | Op.pause =>
      if s.playing then runEffect { s with playing := false } else s
  | Op.next =>
      let i := clampNext s.result s.idx
      if i = s.idx then s else runEffect { s with idx := i }
  | Op.prev =>
      let i := clampPrev s.idx
      if i = s.idx then s else runEffect { s with idx := i }
  | Op.reset =>
      if s.idx = 0 ∧ s.playing = false then s
      else runEffect { s with idx := 0, playing := false }
  | Op.install r =>
      runEffect { s with result := some r, idx := 0, playing := false,
                         error := "", loading := false }
  | Op.genFail msg =>
      runEffect { s with result := none, idx := 0, playing := false,
                         error := msg, loading := false }
  | Op.tick t =>
      if t ∈ s.pending then
        let p := stepTick s.result s.idx s.playing
        let s2 : PlayerState := { s with pending := s.pending.erase t,
                                         idx := p.1, playing := p.2 }
        if p.1 = s.idx ∧ p.2 = s.playing then s2 else runEffect s2
      else s

/-- The component's initial state (App.jsx lines 163-168): no result,
cursor 0, not playing, no error, pacing `normal`, no timer ever scheduled. -/
def initState : PlayerState :=
  { result := none, pacing := "normal", idx := 0, playing := false,
    error := "", loading := false, timerRef := none, pending := [], fresh := 0 }

def applyOps (s : PlayerState) (ops : List Op) : PlayerState :=
  ops.foldl (fun s' op => applyOp op s') s

/-- Roster lookup `result.characters.find(c => c.id === ch.id)`
(App.jsx lines 113, 360, 394). -/
def findCharacter (roster : List Character) (id : String) : Option Character :=
  roster.find? (fun c => c.id == id)

/-- What the animated player shows for one character appearance. -/
structure RenderedChar where
  name : String
  colorHue : ℤ
  emotion : Option String
  dialogue : Option String
  deriving DecidableEq

/-- The animated-player character render (App.jsx lines 359-370):
`const base = result.characters.find(c => c.id === ch.id)` followed by the
unguarded accesses `base.color` and `base.name`; when the lookup misses,
the property access on `undefined` throws a TypeError, modelled as
`Except.error`. -/
def renderPlayerCharacter (roster : List Character) (ch : CharacterAppearance) :
    Except String RenderedChar :=
  match findCharacter roster ch.id with
  | none => Except.error "TypeError: cannot read name/color of undefined"
  | some base => Except.ok ⟨base.name, base.color * 55 % 360, ch.emotion, ch.dialogue⟩

/-- Rendering all character appearances of the current scene in the
animated player; the first dangling reference aborts the whole render. -/
def renderPlayerCharacters (roster : List Character)
    (chs : List CharacterAppearance) : Except String (List RenderedChar) :=
  chs.mapM (renderPlayerCharacter roster)

/-- The static scene-list character render (App.jsx lines 391-400):
`result.characters.find(c => c.id===ch.id)?.name` — the optional chain
makes the dereference total, `none` standing for the rendered `undefined`. -/
def renderStaticCharacterName (roster : List Character)
    (ch : CharacterAppearance) : Option String :=
  (findCharacter roster ch.id).map (fun c => c.name)

/-- A minimal scene used to build concrete sequences. -/
def mkScene (sid : String) (d : Option ℚ) : Scene :=
  ⟨sid, "Title " ++ sid, "Description", "e1", ⟨"crossfade", d⟩, []⟩

/-- A concrete two-scene generation result. -/
def sampleResult2 : GenResult :=
  ⟨"storybook", [⟨"c1", "Alice", 3⟩], [⟨"e1", "Forest"⟩],
   [mkScene "s1" (some 1), mkScene "s2" (some 1)]⟩

/-- The three-scene result of the spec scenario: pacing normal, transition
durations 0.8 s, 1.2 s, 0.8 s. -/
def sampleResult3 : GenResult :=
  ⟨"storybook", [⟨"c1", "Alice", 3⟩], [⟨"e1", "Forest"⟩],
   [mkScene "s1" (some 0.8), mkScene "s2" (some 1.2), mkScene "s3" (some 0.8)]⟩

/-- A generation result with no scenes at all. -/
def sampleResultEmpty : GenResult :=
  ⟨"storybook", [⟨"c1", "Alice", 3⟩], [⟨"e1", "Forest"⟩], []⟩

/-- A one-scene result whose transition duration is the falsy value `0`. -/
def sampleResultZero : GenResult :=
  ⟨"storybook", [⟨"c1", "Alice", 3⟩], [⟨"e1", "Forest"⟩], [mkScene "s1" (some 0)]⟩

lemma runEffect_result (s : PlayerState) : (runEffect s).result = s.result := by
  unfold runEffect
  split
  · split <;> rfl
  · rfl

lemma runEffect_idx (s : PlayerState) : (runEffect s).idx = s.idx := by
  unfold runEffect
  split
  · split <;> rfl
  · rfl

lemma runEffect_playing (s : PlayerState) : (runEffect s).playing = s.playing := by
  unfold runEffect
  split
  · split <;> rfl
  · rfl

lemma runEffect_pacing (s : PlayerState) : (runEffect s).pacing = s.pacing := by
  unfold runEffect
  split
  · split <;> rfl
  · rfl

lemma runEffect_error (s : PlayerState) : (runEffect s).error = s.error := by
  unfold runEffect
  split
  · split <;> rfl
  · rfl

/-- The cursor-bounds invariant: the cursor never drops below `-1`, and as
soon as the installed sequence is nonempty it lies within `[0, length-1]`. -/
def Inv3 (s : PlayerState) : Prop :=
  -1 ≤ s.idx ∧ ∀ r, s.result = some r → 1 ≤ r.scenes.length →
    0 ≤ s.idx ∧ s.idx < (r.scenes.length : ℤ)

lemma inv3_runEffect (s : PlayerState) (h : Inv3 s) : Inv3 (runEffect s) := by
  unfold Inv3 at h ⊢
  rw [runEffect_idx, runEffect_result]
  exact h

lemma inv3_stepTick (result : Option GenResult) (i : ℤ) (b : Bool)
    (h1 : -1 ≤ i)
    (h2 : ∀ r, result = some r → 1 ≤ r.scenes.length →
      0 ≤ i ∧ i < (r.scenes.length : ℤ)) :
    -1 ≤ (stepTick result i b).1 ∧
      ∀ r, result = some r → 1 ≤ r.scenes.length →
        0 ≤ (stepTick result i b).1 ∧
          (stepTick result i b).1 < (r.scenes.length : ℤ) := by
  rcases result with _ | r
  · simp [stepTick]
  · have h2' := fun hL => h2 r rfl hL
    simp only [stepTick]
    split_ifs with hc
    · refine ⟨h1, ?_⟩
      intro r' hr' hL
      injection hr' with e
      subst e
      exact h2' hL
    · refine ⟨by omega, ?_⟩
      intro r' hr' hL
      injection hr' with e
      subst e
      have := h2' hL
      omega

lemma inv3_applyOp (op : Op) (s : PlayerState) (h : Inv3 s) :
    Inv3 (applyOp op s) := by
  obtain ⟨h1, h2⟩ := h
  cases op with
  | play =>
      simp only [applyOp]
      split
      · exact ⟨h1, h2⟩
      · exact inv3_runEffect _ ⟨h1, h2⟩
  | pause =>
      simp only [applyOp]
      split
      · exact inv3_runEffect _ ⟨h1, h2⟩
      · exact ⟨h1, h2⟩
  | next =>
      simp only [applyOp]
      split
      · exact ⟨h1, h2⟩
      · apply inv3_runEffect
        rcases hres : s.result with _ | r
        · refine ⟨?_, ?_⟩ <;> dsimp only
          · show (-1:ℤ) ≤ 0
            norm_num
          · intro r' hr' _
            cases hr'
        · have h2' := fun hL => h2 r hres hL
          refine ⟨?_, ?_⟩ <;> dsimp only
          · simp only [clampNext, hres, min_def]
            split_ifs <;> omega
          · intro r' hr' hL
            simp only [hres, Option.some.injEq] at hr'
            subst hr'
            have := h2' hL
            simp only [clampNext, hres, min_def]
            split_ifs <;> omega
  | prev =>
      simp only [applyOp]
      split
      · exact ⟨h1, h2⟩
      · apply inv3_runEffect
        refine ⟨?_, ?_⟩ <;> dsimp only
        · simp only [clampPrev, max_def]
          split_ifs <;> omega
        · intro r hr hL
          have := h2 r hr hL
          simp only [clampPrev, max_def]
          split_ifs <;> omega
  | reset =>
      simp only [applyOp]
      split
      · exact ⟨h1, h2⟩
      · apply inv3_runEffect
        refine ⟨?_, ?_⟩ <;> dsimp only
        · omega
        · intro r hr hL
          exact ⟨le_refl 0, by exact_mod_cast hL⟩
  | install r =>
      simp only [applyOp]
      apply inv3_runEffect
      refine ⟨?_, ?_⟩ <;> dsimp only
      · omega
      · intro r' hr' hL
        injection hr' with e
        subst e
        refine ⟨le_refl 0, ?_⟩
        omega
  | genFail msg =>
      simp only [applyOp]
      apply inv3_runEffect
      refine ⟨?_, ?_⟩ <;> dsimp only
      · omega
      · intro r' hr'
        cases hr'
  | tick t =>
      simp only [applyOp]
      split
      · have hs := inv3_stepTick s.result s.idx s.playing h1 h2
        split
        · exact hs
        · exact inv3_runEffect _ hs
      · exact ⟨h1, h2⟩

lemma inv3_initState : Inv3 initState := by
  refine ⟨by norm_num [initState], ?_⟩
  intro r hr
  cases hr

lemma inv3_applyOps (ops : List Op) (s : PlayerState) (h : Inv3 s) :
    Inv3 (applyOps s ops) := by
  induction ops generalizing s with
  | nil => exact h
  | cons op ops ih => exact ih (applyOp op s) (inv3_applyOp op s h)

/-- The single-timer invariant: either no timeout is pending, or exactly one
is, and it is the one recorded in `timerRef`. -/
def TimerInv (s : PlayerState) : Prop :=
  s.pending = [] ∨ ∃ t, s.timerRef = some t ∧ s.pending = [t]

lemma erasePending_of_timerInv (tr : Option ℕ) (p : List ℕ)
    (h : p = [] ∨ ∃ t, tr = some t ∧ p = [t]) : erasePending tr p = [] := by
  rcases h with h | ⟨t, htr, hp⟩
  · subst h
    cases tr <;> simp [erasePending]
  · subst hp
    subst htr
    simp [erasePending]

lemma timerInv_runEffect (s : PlayerState) (h : TimerInv s) :
    TimerInv (runEffect s) := by
  have he : erasePending s.timerRef s.pending = [] := erasePending_of_timerInv _ _ h
  unfold runEffect
  split
  · split
    · exact Or.inl he
    · refine Or.inr ⟨s.fresh, rfl, ?_⟩
      show erasePending s.timerRef s.pending ++ [s.fresh] = [s.fresh]
      rw [he]
      rfl
  · exact Or.inl he

lemma timerInv_erase (s : PlayerState) (t : ℕ) (h : TimerInv s) :
    s.pending.erase t = [] ∨ ∃ u, s.timerRef = some u ∧ s.pending.erase t = [u] := by
  rcases h with h | ⟨u, htr, hp⟩
  · left
    simp [h]
  · rw [hp]
    by_cases he : u = t
    · subst he
      left
      simp
    · right
      refine ⟨u, htr, ?_⟩
      rw [List.erase_cons_tail, List.erase_nil]
      simp [he]

lemma timerInv_applyOp (op : Op) (s : PlayerState) (h : TimerInv s) :
    TimerInv (applyOp op s) := by
  cases op with
  | play =>
      simp only [applyOp]
      split
      · exact h
      · exact timerInv_runEffect _ h
  | pause =>
      simp only [applyOp]
      split
      · exact timerInv_runEffect _ h
      · exact h
  | next =>
      simp only [applyOp]
      split
      · exact h
      · exact timerInv_runEffect _ h
  | prev =>
      simp only [applyOp]
      split
      · exact h
      · exact timerInv_runEffect _ h
  | reset =>
      simp only [applyOp]
      split
      · exact h
      · exact timerInv_runEffect _ h
  | install r =>
      simp only [applyOp]
      exact timerInv_runEffect _ h
  | genFail msg =>
      simp only [applyOp]
      exact timerInv_runEffect _ h
  | tick t =>
      simp only [applyOp]
      split
      · have h2 := timerInv_erase s t h
        split
        · exact h2
        · exact timerInv_runEffect _ h2
      · exact h

lemma timerInv_initState : TimerInv initState := Or.inl rfl

lemma timerInv_applyOps (ops : List Op) (s : PlayerState) (h : TimerInv s) :
    TimerInv (applyOps s ops) := by
  induction ops generalizing s with
  | nil => exact h
  | cons op ops ih => exact ih (applyOp op s) (timerInv_applyOp op s h)

/-- C3: after any finite sequence of operations (play, pause, next,
previous, reset, tick, install, failed generate) starting from the
component's initial state, whenever the installed sequence has length
`L ≥ 1` the cursor lies in `[0, L-1]`: every mutation clamps it to these
bounds. -/
theorem c3_cursor_always_in_bounds (ops : List Op) (r : GenResult)
    (hres : (applyOps initState ops).result = some r)
    (hL : 1 ≤ r.scenes.length) :
    0 ≤ (applyOps initState ops).idx ∧
      (applyOps initState ops).idx < (r.scenes.length : ℤ) :=
  (inv3_applyOps ops initState inv3_initState).2 r hres hL

theorem c3_cursor_always_in_bounds_witness :
    (applyOps initState [Op.install sampleResult3, Op.play, Op.tick 0, Op.next,
        Op.prev]).result = some sampleResult3 ∧
    1 ≤ sampleResult3.scenes.length ∧
    (0 ≤ (applyOps initState [Op.install sampleResult3, Op.play, Op.tick 0, Op.next,
        Op.prev]).idx ∧
      (applyOps initState [Op.install sampleResult3, Op.play, Op.tick 0, Op.next,
        Op.prev]).idx < (sampleResult3.scenes.length : ℤ)) :=
  ⟨by norm_num +decide [applyOps, applyOp, runEffect, erasePending, initState,
      getDelayMs, currentScene, basePerSceneMs, orDefault, clampNext, clampPrev,
      stepTick, mkScene, sampleResult3, Int.toNat, List.get?, max_def, min_def],
   by decide,
   c3_cursor_always_in_bounds
     [Op.install sampleResult3, Op.play, Op.tick 0, Op.next, Op.prev]
     sampleResult3
     (by norm_num +decide [applyOps, applyOp, runEffect, erasePending, initState,
        getDelayMs, currentScene, basePerSceneMs, orDefault, clampNext, clampPrev,
        stepTick, mkScene, sampleResult3, Int.toNat, List.get?, max_def, min_def])
     (by decide)⟩

/-- C4: a tick fired while the cursor is at the last index `L-1` of a
sequence of length `L ≥ 1` turns the playing flag off and leaves the cursor
unchanged at `L-1` — the playback never loops back to scene 0. -/
theorem c4_tick_at_last_index_stops (s : PlayerState) (r : GenResult) (t : ℕ)
    (hres : s.result = some r) (_hL : 1 ≤ r.scenes.length)
    (hidx : s.idx = (r.scenes.length : ℤ) - 1) (ht : t ∈ s.pending) :
    (applyOp (Op.tick t) s).playing = false ∧
      (applyOp (Op.tick t) s).idx = (r.scenes.length : ℤ) - 1 := by
  have hstep : stepTick s.result s.idx s.playing = (s.idx, false) := by
    rw [hres]
    simp only [stepTick]
    rw [if_pos (by omega)]
  simp only [applyOp, hstep]
  rw [if_pos ht]
  split
  · exact ⟨rfl, hidx⟩
  · rw [runEffect_playing, runEffect_idx]
    exact ⟨rfl, hidx⟩

theorem c4_tick_at_last_index_stops_witness :
    (applyOps initState [Op.install sampleResult2, Op.next, Op.play]).result =
        some sampleResult2 ∧
    1 ≤ sampleResult2.scenes.length ∧
    (applyOps initState [Op.install sampleResult2, Op.next, Op.play]).idx =
        (sampleResult2.scenes.length : ℤ) - 1 ∧
    0 ∈ (applyOps initState [Op.install sampleResult2, Op.next, Op.play]).pending ∧
    ((applyOp (Op.tick 0)
        (applyOps initState [Op.install sampleResult2, Op.next, Op.play])).playing = false ∧
      (applyOp (Op.tick 0)
        (applyOps initState [Op.install sampleResult2, Op.next, Op.play])).idx =
        (sampleResult2.scenes.length : ℤ) - 1) :=
  ⟨by norm_num +decide [applyOps, applyOp, runEffect, erasePending, initState,
      getDelayMs, currentScene, basePerSceneMs, orDefault, clampNext, clampPrev,
      stepTick, mkScene, sampleResult2, Int.toNat, List.get?, max_def, min_def],
   by decide,
   by norm_num +decide [applyOps, applyOp, runEffect, erasePending, initState,
      getDelayMs, currentScene, basePerSceneMs, orDefault, clampNext, clampPrev,
      stepTick, mkScene, sampleResult2, Int.toNat, List.get?, max_def, min_def],
   by norm_num +decide [applyOps, applyOp, runEffect, erasePending, initState,
      getDelayMs, currentScene, basePerSceneMs, orDefault, clampNext, clampPrev,
      stepTick, mkScene, sampleResult2, Int.toNat, List.get?, max_def, min_def],
   c4_tick_at_last_index_stops _ sampleResult2 0
     (by norm_num +decide [applyOps, applyOp, runEffect, erasePending, initState,
        getDelayMs, currentScene, basePerSceneMs, orDefault, clampNext, clampPrev,
        stepTick, mkScene, sampleResult2, Int.toNat, List.get?, max_def, min_def])
     (by decide)
     (by norm_num +decide [applyOps, applyOp, runEffect, erasePending, initState,
        getDelayMs, currentScene, basePerSceneMs, orDefault, clampNext, clampPrev,
        stepTick, mkScene, sampleResult2, Int.toNat, List.get?, max_def, min_def])
     (by norm_num +decide [applyOps, applyOp, runEffect, erasePending, initState,
        getDelayMs, currentScene, basePerSceneMs, orDefault, clampNext, clampPrev,
        stepTick, mkScene, sampleResult2, Int.toNat, List.get?, max_def, min_def])⟩

/-- C7: at most one pending scheduled advance exists after any sequence of
operations from the initial state; in particular play followed by rapid
next, next, previous leaves exactly one scheduled advance. -/
theorem c7_at_most_one_pending_timer :
    (∀ ops : List Op, ((applyOps initState ops).pending).length ≤ 1) ∧
    ((applyOps initState
        [Op.install sampleResult3, Op.play, Op.next, Op.next, Op.prev]).pending).length
      = 1 := by
  constructor
  · intro ops
    rcases timerInv_applyOps ops initState timerInv_initState with h | ⟨t, _, hp⟩
    · rw [h]
      norm_num
    · rw [hp]
      norm_num
  · norm_num +decide [applyOps, applyOp, runEffect, erasePending, initState,
      getDelayMs, currentScene, basePerSceneMs, orDefault, clampNext, clampPrev,
      stepTick, mkScene, sampleResult3, Int.toNat, List.get?, max_def, min_def]

/-- C5: the scheduled delay is `basePerSceneMs(pacing)` plus 1000 times the
current scene's transition duration, with slow mapping to 4000 ms, normal to
2800 ms, fast to 1800 ms and an unspecified duration contributing the
default 800 ms; for the three-scene sequence with durations 0.8 s, 1.2 s,
0.8 s at normal pacing the successive delays are 3600 ms, 4000 ms, 3600 ms. -/
theorem c5_delay_formula :
    (∀ (result : Option GenResult) (idx : ℤ) (pacing : String) (sc : Scene),
        currentScene result idx = some sc →
        getDelayMs result idx pacing =
          basePerSceneMs pacing + 1000 * orDefault sc.transition.duration 0.8) ∧
    basePerSceneMs "slow" = 4000 ∧
    basePerSceneMs "normal" = 2800 ∧
    basePerSceneMs "fast" = 1800 ∧
    1000 * orDefault none 0.8 = 800 ∧
    getDelayMs (some sampleResult3) 0 "normal" = 3600 ∧
    getDelayMs (some sampleResult3) 1 "normal" = 4000 ∧
    getDelayMs (some sampleResult3) 2 "normal" = 3600 := by
  refine ⟨?_, by norm_num +decide [basePerSceneMs], by norm_num +decide [basePerSceneMs],
    by norm_num +decide [basePerSceneMs], by norm_num [orDefault], ?_, ?_, ?_⟩
  · intro result idx pacing sc hsc
    unfold getDelayMs
    rw [hsc]
    ring
  all_goals
    norm_num +decide [getDelayMs, currentScene, basePerSceneMs, orDefault,
      mkScene, sampleResult3, Int.toNat, List.get?]

theorem c5_delay_formula_witness :
    currentScene (some sampleResult3) 1 = some (mkScene "s2" (some 1.2)) ∧
    getDelayMs (some sampleResult3) 1 "normal" =
      basePerSceneMs "normal" +
        1000 * orDefault (mkScene "s2" (some 1.2)).transition.duration 0.8 :=
  ⟨by norm_num +decide [currentScene, sampleResult3, mkScene, Int.toNat, List.get?],
   c5_delay_formula.1 (some sampleResult3) 1 "normal" (mkScene "s2" (some 1.2))
     (by norm_num +decide [currentScene, sampleResult3, mkScene, Int.toNat, List.get?])⟩

/-- Every motion profile's animate phase carries the scene duration
(after the falsy-default) as its transition duration. -/
lemma animate_transition_of_getTransitionVariants (t : String) (d : Option ℚ) :
    (getTransitionVariants t d).animate.transition = some (orDefault d 0.8) := by
  unfold getTransitionVariants
  split_ifs <;> rfl

/-- C9: transition-profile selection is a pure function of the type string
and the (defaulted) duration: each of the five known types yields its fixed
preset, and every unrecognized type string yields the crossfade profile with
the scene's own duration, exactly as the `crossfade` case does. -/
theorem c9_transition_profile_selection :
    (∀ d, getTransitionVariants "crossfade" d = crossfadeVariants (orDefault d 0.8)) ∧
    (∀ d, getTransitionVariants "wipe" d = wipeVariants (orDefault d 0.8)) ∧
    (∀ d, getTransitionVariants "pan" d = panVariants (orDefault d 0.8)) ∧
    (∀ d, getTransitionVariants "dolly" d = dollyVariants (orDefault d 0.8)) ∧
    (∀ d, getTransitionVariants "fade-through-black" d =
        fadeThroughBlackVariants (orDefault d 0.8)) ∧
    (∀ t d, t ∉ knownTransitionTypes →
        getTransitionVariants t d = crossfadeVariants (orDefault d 0.8) ∧
        getTransitionVariants t d = getTransitionVariants "crossfade" d) := by
  refine ⟨?_, ?_, ?_, ?_, ?_, ?_⟩
  · intro d
    norm_num +decide [getTransitionVariants]
  · intro d
    norm_num +decide [getTransitionVariants]
  · intro d
    norm_num +decide [getTransitionVariants]
  · intro d
    norm_num +decide [getTransitionVariants]
  · intro d
    norm_num +decide [getTransitionVariants]
  · intro t d ht
    simp only [knownTransitionTypes, List.mem_cons, List.not_mem_nil, or_false,
      not_or] at ht
    obtain ⟨h1, h2, h3, h4, h5⟩ := ht
    constructor
    · simp only [getTransitionVariants, if_neg h2, if_neg h3, if_neg h4, if_neg h5]
    · simp only [getTransitionVariants, if_neg h2, if_neg h3, if_neg h4, if_neg h5]
      norm_num +decide

theorem c9_transition_profile_selection_witness :
    "zoom" ∉ knownTransitionTypes ∧
    getTransitionVariants "zoom" (some 2) = crossfadeVariants (orDefault (some 2) 0.8) :=
  ⟨by decide,
   (c9_transition_profile_selection.2.2.2.2.2 "zoom" (some 2) (by decide)).1⟩

/-- C10: a transition duration equal to the falsy value `0` behaves exactly
like an absent duration: the delay is `basePerSceneMs + 800` and the motion
profile is the one for the 0.8 s default — at the public interface a zero
duration is indistinguishable from an unspecified one. -/
theorem c10_zero_duration_defaults (pacing : String) (result : Option GenResult)
    (idx : ℤ) (sc : Scene) (t : String)
    (hsc : currentScene result idx = some sc)
    (hd : sc.transition.duration = some 0 ∨ sc.transition.duration = none) :
    getDelayMs result idx pacing = basePerSceneMs pacing + 800 ∧
    getTransitionVariants t (some 0) = getTransitionVariants t none ∧
    (getTransitionVariants t sc.transition.duration).animate.transition = some 0.8 := by
  have hzero : orDefault (some 0) 0.8 = orDefault none 0.8 := by
    norm_num [orDefault]
  refine ⟨?_, ?_, ?_⟩
  · unfold getDelayMs
    rw [hsc]
    rcases hd with hd | hd <;> norm_num [orDefault, hd]
  · unfold getTransitionVariants
    rw [hzero]
  · rw [animate_transition_of_getTransitionVariants]
    rcases hd with hd | hd <;> norm_num [orDefault, hd]

theorem c10_zero_duration_defaults_witness :
    currentScene (some sampleResultZero) 0 = some (mkScene "s1" (some 0)) ∧
    ((mkScene "s1" (some 0)).transition.duration = some 0 ∨
      (mkScene "s1" (some 0)).transition.duration = none) ∧
    (getDelayMs (some sampleResultZero) 0 "normal" = basePerSceneMs "normal" + 800 ∧
      getTransitionVariants "wipe" (some 0) = getTransitionVariants "wipe" none ∧
      (getTransitionVariants "wipe" (mkScene "s1" (some 0)).transition.duration).animate.transition
        = some 0.8) :=
  ⟨by norm_num +decide [currentScene, sampleResultZero, mkScene, Int.toNat, List.get?],
   Or.inl rfl,
   c10_zero_duration_defaults "normal" (some sampleResultZero) 0
     (mkScene "s1" (some 0)) "wipe"
     (by norm_num +decide [currentScene, sampleResultZero, mkScene, Int.toNat, List.get?])
     (Or.inl rfl)⟩

/-- In the branch where auto-advance is disabled (`enabled` false), the
effect cycle only clears the ref's timeout. -/
lemma runEffect_not_enabled (s : PlayerState)
    (h : (s.playing && s.result.isSome) = false) :
    runEffect s = { s with pending := erasePending s.timerRef s.pending } := by
  unfold runEffect
  rw [h]
  rfl

/-- C1 counterexample: starting from an installed two-scene sequence with the
cursor on scene 1, a failed `generate()` leaves the result cleared and the
cursor reset to 0 — not the prior sequence and cursor, as the claim states. -/
theorem c1_failed_generate_counterexample :
    (applyOps initState [Op.install sampleResult2, Op.next]).result =
        some sampleResult2 ∧
    (applyOps initState [Op.install sampleResult2, Op.next]).idx = 1 ∧
    (applyOps initState [Op.install sampleResult2, Op.next, Op.genFail "boom"]).result
        = none ∧
    (applyOps initState [Op.install sampleResult2, Op.next, Op.genFail "boom"]).idx
        = 0 := by
  refine ⟨?_, ?_, ?_, ?_⟩ <;>
    norm_num +decide [applyOps, applyOp, runEffect, erasePending, initState,
      getDelayMs, currentScene, basePerSceneMs, orDefault, clampNext, clampPrev,
      stepTick, mkScene, sampleResult2, Int.toNat, List.get?, max_def, min_def]

/-- C1 amended: `generate()` clears the installed sequence and resets the
player before issuing the request, so after a failed request the state is
the cleared state — result gone, cursor 0, auto-advance off, error message
set, and no timer pending — rather than the pre-call state. -/
theorem c1_failed_generate_resets (s : PlayerState) (msg : String)
    (hT : TimerInv s) :
    (applyOp (Op.genFail msg) s).result = none ∧
    (applyOp (Op.genFail msg) s).idx = 0 ∧
    (applyOp (Op.genFail msg) s).playing = false ∧
    (applyOp (Op.genFail msg) s).error = msg ∧
    (applyOp (Op.genFail msg) s).pending = [] := by
  have he : erasePending s.timerRef s.pending = [] :=
    erasePending_of_timerInv _ _ hT
  simp only [applyOp]
  rw [runEffect_not_enabled]
  · exact ⟨rfl, rfl, rfl, rfl, he⟩
  · rfl

theorem c1_failed_generate_resets_witness :
    TimerInv (applyOps initState [Op.install sampleResult2, Op.next]) ∧
    (applyOp (Op.genFail "boom")
        (applyOps initState [Op.install sampleResult2, Op.next])).result = none ∧
    (applyOp (Op.genFail "boom")
        (applyOps initState [Op.install sampleResult2, Op.next])).idx = 0 ∧
    (applyOp (Op.genFail "boom")
        (applyOps initState [Op.install sampleResult2, Op.next])).playing = false ∧
    (applyOp (Op.genFail "boom")
        (applyOps initState [Op.install sampleResult2, Op.next])).error = "boom" ∧
    (applyOp (Op.genFail "boom")
        (applyOps initState [Op.install sampleResult2, Op.next])).pending = [] := by
  have hT : TimerInv (applyOps initState [Op.install sampleResult2, Op.next]) :=
    Or.inl (by norm_num +decide [applyOps, applyOp, runEffect, erasePending,
      initState, getDelayMs, currentScene, basePerSceneMs, orDefault, clampNext,
      clampPrev, stepTick, mkScene, sampleResult2, Int.toNat, List.get?, max_def,
      min_def])
  obtain ⟨a, b, c, d, e⟩ :=
    c1_failed_generate_resets (applyOps initState [Op.install sampleResult2, Op.next])
      "boom" hT
  exact ⟨hT, a, b, c, d, e⟩

/-- C2 (code bug): in the animated player a character appearance whose id is
missing from the roster makes the unguarded `base.name` / `base.color`
dereference fail (a TypeError crash), instead of the not-found-tolerant
rendering that the static scene list performs with its optional chain. -/
theorem c2_dangling_reference_crashes :
    findCharacter [⟨"c1", "Alice", 3⟩] "ghost" = none ∧
    renderPlayerCharacters [⟨"c1", "Alice", 3⟩] [⟨"ghost", none, none⟩] =
      Except.error "TypeError: cannot read name/color of undefined" ∧
    renderStaticCharacterName [⟨"c1", "Alice", 3⟩] ⟨"ghost", none, none⟩ = none ∧
    renderPlayerCharacters [⟨"c1", "Alice", 3⟩] [⟨"c1", none, none⟩] =
      Except.ok [⟨"Alice", 165, none, none⟩] :=
  ⟨rfl, rfl, rfl, rfl⟩

lemma result_isSome_of_currentScene (result : Option GenResult) (idx : ℤ)
    (sc : Scene) (h : currentScene result idx = some sc) : result.isSome = true := by
  rcases result with _ | r
  · simp [currentScene] at h
  · rfl

/-- When auto-advance is enabled and the computed delay is positive, the
effect cycle cancels the previous timeout and schedules exactly one fresh
one. -/
lemma runEffect_schedules (s : PlayerState) (hT : TimerInv s)
    (hen : (s.playing && s.result.isSome) = true)
    (hdel : 0 < getDelayMs s.result s.idx s.pacing) :
    (runEffect s).pending = [s.fresh] ∧ (runEffect s).timerRef = some s.fresh ∧
      (runEffect s).fresh = s.fresh + 1 := by
  have he := erasePending_of_timerInv _ _ hT
  simp only [runEffect]
  rw [if_pos hen, if_neg (not_le.mpr hdel)]
  refine ⟨?_, rfl, rfl⟩
  show erasePending s.timerRef s.pending ++ [s.fresh] = [s.fresh]
  rw [he]
  rfl

/-- C6 counterexample: with a two-scene sequence and the cursor already at
the last index, pressing Play is not a no-op — it schedules a timeout
(`pending` becomes `[0]`), contradicting the claim that no timer is
scheduled in that case. -/
theorem c6_play_at_last_index_counterexample :
    (applyOps initState [Op.install sampleResult2, Op.next]).idx =
        (sampleResult2.scenes.length : ℤ) - 1 ∧
    (applyOps initState [Op.install sampleResult2, Op.next]).playing = false ∧
    (applyOps initState [Op.install sampleResult2, Op.next, Op.play]).pending = [0] := by
  refine ⟨?_, ?_, ?_⟩ <;>
    norm_num +decide [applyOps, applyOp, runEffect, erasePending, initState,
      getDelayMs, currentScene, basePerSceneMs, orDefault, clampNext, clampPrev,
      stepTick, mkScene, sampleResult2, Int.toNat, List.get?, max_def, min_def]

/-- C6 amended: from a non-playing state, Play schedules no timer exactly
when there is no current scene (no result, or an empty sequence, or an
out-of-range cursor); whenever a current scene exists and its computed delay
is positive — in particular at the last index — Play schedules exactly one
advance using the delay function. -/
theorem c6_play_schedules_amended (s : PlayerState)
    (hT : TimerInv s) (hp : s.playing = false) :
    (currentScene s.result s.idx = none → (applyOp Op.play s).pending = []) ∧
    (∀ sc, currentScene s.result s.idx = some sc →
        0 < getDelayMs s.result s.idx s.pacing →
        (applyOp Op.play s).pending = [s.fresh] ∧
        (applyOp Op.play s).timerRef = some s.fresh) := by
  have he := erasePending_of_timerInv _ _ hT
  simp only [applyOp]
  rw [if_neg (by simp [hp])]
  constructor
  · intro hcs
    have hdel : getDelayMs s.result s.idx s.pacing = 0 := by
      unfold getDelayMs
      rw [hcs]
    unfold runEffect
    split
    · split
      · exact he
      · rename_i hgt
        exact absurd (le_of_eq hdel) hgt
    · exact he
  · intro sc hcs hdel
    have hs := runEffect_schedules
      { s with playing := true } hT
      (by simp [result_isSome_of_currentScene s.result s.idx sc hcs])
      hdel
    exact ⟨hs.1, hs.2.1⟩

theorem c6_play_schedules_amended_witness :
    TimerInv (applyOps initState [Op.install sampleResultEmpty]) ∧
    (applyOps initState [Op.install sampleResultEmpty]).playing = false ∧
    currentScene (applyOps initState [Op.install sampleResultEmpty]).result
      (applyOps initState [Op.install sampleResultEmpty]).idx = none ∧
    (applyOp Op.play (applyOps initState [Op.install sampleResultEmpty])).pending = [] := by
  have hT : TimerInv (applyOps initState [Op.install sampleResultEmpty]) :=
    Or.inl (by norm_num +decide [applyOps, applyOp, runEffect, erasePending,
      initState, getDelayMs, currentScene, basePerSceneMs, orDefault, clampNext,
      clampPrev, stepTick, mkScene, sampleResultEmpty, Int.toNat, List.get?])
  have hp : (applyOps initState [Op.install sampleResultEmpty]).playing = false := by
    norm_num +decide [applyOps, applyOp, runEffect, erasePending,
      initState, getDelayMs, currentScene, basePerSceneMs, orDefault, clampNext,
      clampPrev, stepTick, mkScene, sampleResultEmpty, Int.toNat, List.get?]
  have hcs : currentScene (applyOps initState [Op.install sampleResultEmpty]).result
      (applyOps initState [Op.install sampleResultEmpty]).idx = none := by
    norm_num +decide [applyOps, applyOp, runEffect, erasePending,
      initState, getDelayMs, currentScene, basePerSceneMs, orDefault, clampNext,
      clampPrev, stepTick, mkScene, sampleResultEmpty, Int.toNat, List.get?]
  exact ⟨hT, hp, hcs,
    (c6_play_schedules_amended (applyOps initState [Op.install sampleResultEmpty])
      hT hp).1 hcs⟩

/-- C8 counterexample: while playing at cursor 0 with a pending timeout,
pressing Prev leaves the entire state — including the pending timeout —
literally unchanged: the effect dependency array `[playing, idx, result,
base]` does not change, so the timer is neither cancelled nor rescheduled,
contradicting the claim that every navigation call while playing resets the
hold clock. -/
theorem c8_prev_at_zero_keeps_timer_counterexample :
    (applyOps initState [Op.install sampleResult2, Op.play]).playing = true ∧
    (applyOps initState [Op.install sampleResult2, Op.play]).idx = 0 ∧
    (applyOps initState [Op.install sampleResult2, Op.play]).pending = [0] ∧
    applyOp Op.prev (applyOps initState [Op.install sampleResult2, Op.play]) =
      applyOps initState [Op.install sampleResult2, Op.play] := by
  refine ⟨?_, ?_, ?_, ?_⟩ <;>
    norm_num +decide [applyOps, applyOp, runEffect, erasePending, initState,
      getDelayMs, currentScene, basePerSceneMs, orDefault, clampNext, clampPrev,
      stepTick, mkScene, sampleResult2, Int.toNat, List.get?, max_def, min_def]

/-- C8 amended: a navigation call fired while playing cancels the pending
timeout and schedules a fresh one relative to the new cursor exactly when
the clamped cursor differs from the old one; when the clamp leaves the
cursor unchanged (previous at index 0, next at the last index) the
operation is a complete no-op and the pending timeout keeps running with
its partial elapsed time. -/
theorem c8_nav_reschedules_amended (s : PlayerState) (r : GenResult)
    (hT : TimerInv s) (hp : s.playing = true) (hres : s.result = some r) :
    (clampPrev s.idx = s.idx → applyOp Op.prev s = s) ∧
    (clampNext s.result s.idx = s.idx → applyOp Op.next s = s) ∧
    (clampPrev s.idx ≠ s.idx →
        0 < getDelayMs s.result (clampPrev s.idx) s.pacing →
        (applyOp Op.prev s).idx = clampPrev s.idx ∧
        (applyOp Op.prev s).pending = [s.fresh] ∧
        (applyOp Op.prev s).timerRef = some s.fresh ∧
        (applyOp Op.prev s).fresh = s.fresh + 1) ∧
    (clampNext s.result s.idx ≠ s.idx →
        0 < getDelayMs s.result (clampNext s.result s.idx) s.pacing →
        (applyOp Op.next s).idx = clampNext s.result s.idx ∧
        (applyOp Op.next s).pending = [s.fresh] ∧
        (applyOp Op.next s).timerRef = some s.fresh ∧
        (applyOp Op.next s).fresh = s.fresh + 1) := by
  refine ⟨?_, ?_, ?_, ?_⟩
  · intro hcl
    simp only [applyOp]
    rw [if_pos hcl]
  · intro hcl
    simp only [applyOp]
    rw [if_pos hcl]
  · intro hcl hdel
    simp only [applyOp]
    rw [if_neg hcl]
    have hs := runEffect_schedules { s with idx := clampPrev s.idx } hT
      (by simp [hp, hres]) hdel
    exact ⟨by rw [runEffect_idx], hs.1, hs.2.1, hs.2.2⟩
  · intro hcl hdel
    simp only [applyOp]
    rw [if_neg hcl]
    have hs := runEffect_schedules { s with idx := clampNext s.result s.idx } hT
      (by simp [hp, hres]) hdel
    exact ⟨by rw [runEffect_idx], hs.1, hs.2.1, hs.2.2⟩

theorem c8_nav_reschedules_amended_witness :
    TimerInv (applyOps initState [Op.install sampleResult2, Op.play]) ∧
    (applyOps initState [Op.install sampleResult2, Op.play]).playing = true ∧
    (applyOps initState [Op.install sampleResult2, Op.play]).result =
      some sampleResult2 ∧
    clampPrev (applyOps initState [Op.install sampleResult2, Op.play]).idx =
      (applyOps initState [Op.install sampleResult2, Op.play]).idx ∧
    applyOp Op.prev (applyOps initState [Op.install sampleResult2, Op.play]) =
      applyOps initState [Op.install sampleResult2, Op.play] := by
  have hT : TimerInv (applyOps initState [Op.install sampleResult2, Op.play]) :=
    Or.inr ⟨0,
      by norm_num +decide [applyOps, applyOp, runEffect, erasePending, initState,
        getDelayMs, currentScene, basePerSceneMs, orDefault, clampNext, clampPrev,
        stepTick, mkScene, sampleResult2, Int.toNat, List.get?, max_def, min_def],
      by norm_num +decide [applyOps, applyOp, runEffect, erasePending, initState,
        getDelayMs, currentScene, basePerSceneMs, orDefault, clampNext, clampPrev,
        stepTick, mkScene, sampleResult2, Int.toNat, List.get?, max_def, min_def]⟩
  have hp : (applyOps initState [Op.install sampleResult2, Op.play]).playing = true := by
    norm_num +decide [applyOps, applyOp, runEffect, erasePending, initState,
      getDelayMs, currentScene, basePerSceneMs, orDefault, clampNext, clampPrev,
      stepTick, mkScene, sampleResult2, Int.toNat, List.get?, max_def, min_def]
  have hres : (applyOps initState [Op.install sampleResult2, Op.play]).result =
      some sampleResult2 := by
    norm_num +decide [applyOps, applyOp, runEffect, erasePending, initState,
      getDelayMs, currentScene, basePerSceneMs, orDefault, clampNext, clampPrev,
      stepTick, mkScene, sampleResult2, Int.toNat, List.get?, max_def, min_def]
  have hcl : clampPrev (applyOps initState [Op.install sampleResult2, Op.play]).idx =
      (applyOps initState [Op.install sampleResult2, Op.play]).idx := by
    norm_num +decide [applyOps, applyOp, runEffect, erasePending, initState,
      getDelayMs, currentScene, basePerSceneMs, orDefault, clampNext, clampPrev,
      stepTick, mkScene, sampleResult2, Int.toNat, List.get?, max_def, min_def]
  exact ⟨hT, hp, hres, hcl,
    (c8_nav_reschedules_amended
      (applyOps initState [Op.install sampleResult2, Op.play]) sampleResult2
      hT hp hres).1 hcl⟩
